import Mathlib

/-!
# Verification of the desktop-companion character-configuration scripts

Shallow embedding of the configuration synthesis and validation engine:

* `src/scripts/add_asset_generation.py` — feature completion
  (`add_missing_features_to_character`, `get_character_asset_config`)
* `src/comprehensive_asset_update.py` — archetype classification and
  animation-mapping merge (`determine_character_archetype`,
  `get_comprehensive_asset_config` lines 262–284)
* `src/scripts/validate_characters.py` — the validator
* `src/scripts/character_audit.py` — the audit feature vocabulary

JSON-like values are modelled by the inductive `JSON`; Python dicts are
association lists preserving insertion order (Python ≥3.7 dict semantics),
numbers are exact rationals.  Where the Python source would raise an
exception (and thus produce no result), the embedding either returns
`Option.none` (feature completion) or takes a documented harmless default
(validator membership tests on scalars); every theorem below is conditioned
so that it only speaks about inputs on which the source is exception-free.
-/

set_option maxHeartbeats 1000000

/-- A JSON-like Python value: `None`, booleans, numbers (modelled as exact
rationals), strings, lists and (insertion-ordered) dicts with string keys. -/
inductive JSON where
  | null : JSON
  | bool (b : Bool) : JSON
  | num (q : Rat) : JSON
  | str (s : String) : JSON
  | arr (elems : List JSON) : JSON
  | obj (fields : List (String × JSON)) : JSON
deriving Repr

mutual

/-- Structural equality of JSON values (Python `==` on the document model). -/
def JSON.beq : JSON → JSON → Bool
  | .null, .null => true
  | .bool a, .bool b => a = b
  | .num a, .num b => a = b
  | .str a, .str b => a = b
  | .arr xs, .arr ys => JSON.beqList xs ys
  | .obj fs, .obj gs => JSON.beqFields fs gs
  | _, _ => false

/-- Elementwise equality of JSON lists. -/
def JSON.beqList : List JSON → List JSON → Bool
  | [], [] => true
  | x :: xs, y :: ys => JSON.beq x y && JSON.beqList xs ys
  | _, _ => false

/-- Entrywise equality of JSON dict entries. -/
def JSON.beqFields : List (String × JSON) → List (String × JSON) → Bool
  | [], [] => true
  | (k, v) :: fs, (k', v') :: gs => k = k' && JSON.beq v v' && JSON.beqFields fs gs
  | _, _ => false

end

instance : BEq JSON := ⟨JSON.beq⟩

/-- A Python dict with string keys, in insertion order. -/
abbrev Obj := List (String × JSON)

/-- First value stored under key `k` (Python dict indexing / `.get`). -/
def lookupKey : Obj → String → Option JSON
  | [], _ => none
  | (k', v) :: rest, k => if k' = k then some v else lookupKey rest k

/-- Python `k in d` for a dict `d`. -/
def hasKey (d : Obj) (k : String) : Bool :=
  (lookupKey d k).isSome

/-- Python `d[k] = v`: replace in place if the key exists (keeping its
position), otherwise append at the end — exactly CPython dict semantics. -/
def setKey : Obj → String → JSON → Obj
  | [], k, v => [(k, v)]
  | (k', v') :: rest, k, v =>
      if k' = k then (k, v) :: rest else (k', v') :: setKey rest k v

/-- Python truthiness of a value (`bool(v)`). -/
def JSON.truthy : JSON → Bool
  | .null => false
  | .bool b => b
  | .num q => q ≠ 0
  | .str s => s ≠ ""
  | .arr xs => !xs.isEmpty
  | .obj fs => !fs.isEmpty

/-- Python `bool(d[k])` with an absent key counting as falsy: this is the
combined test `k in d and d[k]` (equivalently the negation of
`k not in d or not d[k]`). -/
def truthyKey (d : Obj) (k : String) : Bool :=
  match lookupKey d k with
  | some v => v.truthy
  | none => false

/-- View a value as a dict; non-dicts give the empty dict.  The source
raises `AttributeError`/`TypeError` when it does dict operations on a
non-dict, producing no result at all; theorems about such code paths are
conditioned on the value being a dict. -/
def objOf : JSON → Obj
  | .obj fs => fs
  | _ => []

/-- View a value as a string; non-strings give `""`.  Used only where the
source would raise on a non-string (no result produced). -/
def strOf : JSON → String
  | .str s => s
  | _ => ""

/-- `List Char` version of `String.isPrefixOf`. -/
def startsWithList : List Char → List Char → Bool
  | [], _ => true
  | _ :: _, [] => false
  | a :: as, b :: bs => a = b && startsWithList as bs

/-- Does `needle` occur as a contiguous run inside `hay`? -/
def hasSubList (needle : List Char) : List Char → Bool
  | [] => startsWithList needle []
  | c :: rest => startsWithList needle (c :: rest) || hasSubList needle rest

/-- Python `needle in hay` for strings (substring containment). -/
def strHas (hay needle : String) : Bool :=
  hasSubList needle.toList hay.toList

/-- ASCII lower-casing of a character (the inputs classified by the source
are ASCII file paths and names). -/
def lowerChar (c : Char) : Char :=
  if 'A' ≤ c ∧ c ≤ 'Z' then Char.ofNat (c.toNat + 32) else c

/-- Python `s.lower()` restricted to ASCII. -/
def lowerStr (s : String) : String :=
  ⟨s.toList.map lowerChar⟩

/-- Python `x in container` where the container may be a dict (key test),
list (element test) or string (substring test, string needles only).
Membership tests on scalars raise `TypeError` in the source and produce no
result; they are modelled as `false` and never relied on by a theorem. -/
def pyMemJSON (x : JSON) (container : JSON) : Bool :=
  match container with
  | .obj fs => match x with
      | .str s => hasKey fs s
      | _ => false
  | .arr xs => xs.contains x
  | .str t => match x with
      | .str s => strHas t s
      | _ => false
  | _ => false

/-- Python `"s" in container`. -/
def pyMem (s : String) (container : JSON) : Bool :=
  pyMemJSON (.str s) container

/-- Python `len(v)` for sized values; `len` of a scalar raises in the
source (no result produced) and is modelled as `0`. -/
def pyLen : JSON → Nat
  | .str s => s.length
  | .arr xs => xs.length
  | .obj fs => fs.length
  | _ => 0

/-- Python `a > b` on two numbers; comparisons involving non-numbers raise
in the source and are modelled as `false`. -/
def numGT : JSON → JSON → Bool
  | .num a, .num b => a > b
  | _, _ => false

/-- Python `a >= b` on two numbers; comparisons involving non-numbers raise
in the source and are modelled as `false`. -/
def numGE : JSON → JSON → Bool
  | .num a, .num b => a ≥ b
  | _, _ => false

section AssocLemmas

theorem lookupKey_setKey_self (d : Obj) (k : String) (v : JSON) :
    lookupKey (setKey d k v) k = some v := by
  induction d with
  | nil => simp [setKey, lookupKey]
  | cons p rest ih =>
      by_cases h : p.1 = k
      · simp [setKey, h, lookupKey]
      · simp [setKey, h, lookupKey, ih]

theorem lookupKey_setKey_ne (d : Obj) (k k' : String) (v : JSON) (h : k' ≠ k) :
    lookupKey (setKey d k' v) k = lookupKey d k := by
  induction d with
  | nil => simp [setKey, lookupKey, h]
  | cons p rest ih =>
      obtain ⟨pk, pv⟩ := p
      by_cases hp : pk = k'
      · subst hp
        simp [setKey, lookupKey, h]
      · simp [setKey, hp, lookupKey, ih]

theorem hasKey_setKey_self (d : Obj) (k : String) (v : JSON) :
    hasKey (setKey d k v) k = true := by
  simp [hasKey, lookupKey_setKey_self]

theorem hasKey_setKey_ne (d : Obj) (k k' : String) (v : JSON) (h : k' ≠ k) :
    hasKey (setKey d k' v) k = hasKey d k := by
  simp [hasKey, lookupKey_setKey_ne d k k' v h]

theorem hasKey_eq_false_iff (d : Obj) (k : String) :
    hasKey d k = false ↔ lookupKey d k = none := by
  cases h : lookupKey d k <;> simp [hasKey, h]

end AssocLemmas

/-! ## Embedding of `src/scripts/add_asset_generation.py` -/

/-- `base_config` of `get_character_asset_config` (lines 17–53). -/
def base_config : Obj :=
  [("generationSettings", .obj
      [("model", .str "flux1d"),
       ("artStyle", .str "anime"),
       ("resolution", .obj [("width", .num 128), ("height", .num 128)]),
       ("qualitySettings", .obj
         [("steps", .num 25), ("cfgScale", .num 7.5), ("seed", .num (-1)),
          ("sampler", .str "euler_a"), ("scheduler", .str "normal")]),
       ("animationSettings", .obj
         [("frameRate", .num 12), ("duration", .num 2.5),
          ("loopType", .str "seamless"), ("optimization", .str "balanced"),
          ("maxFileSize", .num 450), ("transparencyEnabled", .bool true),
          ("colorPalette", .str "adaptive")])]),
   ("assetMetadata", .obj
      [("version", .str "1.0.0"),
       ("generatedAt", .str "2024-12-19T12:00:00Z"),
       ("generatedBy", .str "gif-generator v1.0.0")]),
   ("backupSettings", .obj
      [("enabled", .bool true), ("backupPath", .str "backups"),
       ("maxBackups", .num 5), ("compressBackups", .bool true)])]

/-- `character_configs` of `get_character_asset_config` (lines 56–133). -/
def character_configs : Obj :=
  [("default", .obj
     [("basePrompt", .str "A friendly anime character with short brown hair and warm brown eyes, cute casual clothing, cheerful and approachable appearance, digital art, transparent background, high quality character design suitable for desktop companion"),
      ("personality_traits", .arr [.str "friendly", .str "cheerful", .str "approachable", .str "casual"])]),
   ("tsundere", .obj
     [("basePrompt", .str "A cute anime girl with twin tails and orange/red hair, bright eyes, school uniform or casual dress, tsundere expression with slight blush, arms crossed or hands on hips, digital art, transparent background, high quality anime character design"),
      ("personality_traits", .arr [.str "tsundere", .str "proud", .str "defensive", .str "cute"])]),
   ("romance_tsundere", .obj
     [("basePrompt", .str "A beautiful anime girl with flowing hair and expressive eyes, elegant clothing with romantic touches, tsundere personality showing subtle romantic interest, digital art, transparent background, high quality romantic character design"),
      ("personality_traits", .arr [.str "romantic", .str "tsundere", .str "elegant", .str "expressive"])]),
   ("flirty", .obj
     [("basePrompt", .str "A charming anime girl with vibrant hair and sparkling eyes, stylish outfit with playful accessories, confident and flirty expression, welcoming pose, digital art, transparent background, high quality character design for romance companion"),
      ("personality_traits", .arr [.str "flirty", .str "confident", .str "charming", .str "playful"])]),
   ("romance_flirty", .obj
     [("basePrompt", .str "A stunning anime girl with flowing colorful hair and bright eyes, fashionable romantic outfit, confident flirty smile and pose, romantic accessories, digital art, transparent background, high quality romantic character design"),
      ("personality_traits", .arr [.str "romantic", .str "flirty", .str "confident", .str "stunning"])]),
   ("slow_burn", .obj
     [("basePrompt", .str "A gentle anime character with soft features and calm eyes, modest comfortable clothing, thoughtful and reserved expression, peaceful demeanor, digital art, transparent background, high quality character design for slow romance"),
      ("personality_traits", .arr [.str "gentle", .str "thoughtful", .str "reserved", .str "peaceful"])]),
   ("romance_slowburn", .obj
     [("basePrompt", .str "A graceful anime character with elegant features and deep eyes, sophisticated clothing with subtle romantic touches, contemplative and gentle expression, digital art, transparent background, high quality romantic character design"),
      ("personality_traits", .arr [.str "graceful", .str "elegant", .str "contemplative", .str "romantic"])]),
   ("romance_supportive", .obj
     [("basePrompt", .str "A warm anime character with kind eyes and soft smile, comfortable caring outfit, supportive and nurturing expression, open welcoming pose, digital art, transparent background, high quality character design for supportive romance"),
      ("personality_traits", .arr [.str "supportive", .str "nurturing", .str "kind", .str "warm"])]),
   ("klippy", .obj
     [("basePrompt", .str "A stylized anime version of a paperclip character with anthropomorphic features, metallic silver-blue coloring, expressive eyes, slightly sarcastic but helpful expression, digital art, transparent background, unique character design"),
      ("personality_traits", .arr [.str "sarcastic", .str "helpful", .str "unique", .str "metallic"])]),
   ("easy", .obj
     [("basePrompt", .str "A sweet anime character with soft features and bright eyes, simple comfortable clothing, happy and easy-going expression, relaxed pose, digital art, transparent background, high quality character design for beginner-friendly companion"),
      ("personality_traits", .arr [.str "sweet", .str "easy-going", .str "relaxed", .str "simple"])]),
   ("normal", .obj
     [("basePrompt", .str "A balanced anime character with pleasant features and friendly eyes, normal casual clothing, moderate expression showing contentment, standard pose, digital art, transparent background, high quality character design for balanced experience"),
      ("personality_traits", .arr [.str "balanced", .str "pleasant", .str "moderate", .str "content"])]),
   ("hard", .obj
     [("basePrompt", .str "A sophisticated anime character with sharp features and intense eyes, formal or complex clothing, demanding or high-maintenance expression, confident pose, digital art, transparent background, high quality character design for challenging experience"),
      ("personality_traits", .arr [.str "sophisticated", .str "demanding", .str "intense", .str "challenging"])]),
   ("challenge", .obj
     [("basePrompt", .str "An elite anime character with striking features and piercing eyes, luxurious or complex outfit, proud and challenging expression, commanding pose, digital art, transparent background, high quality character design for expert-level experience"),
      ("personality_traits", .arr [.str "elite", .str "challenging", .str "commanding", .str "proud"])]),
   ("specialist", .obj
     [("basePrompt", .str "A sleepy anime character with drowsy features and tired but cute eyes, comfortable pajamas or cozy clothing, sleepy expression with slight smile, relaxed sleepy pose, digital art, transparent background, high quality character design for energy-focused gameplay"),
      ("personality_traits", .arr [.str "sleepy", .str "cozy", .str "tired", .str "cute"])]),
   ("romance", .obj
     [("basePrompt", .str "A romantic anime character with beautiful features and loving eyes, elegant romantic outfit with soft colors, gentle romantic expression, graceful pose, digital art, transparent background, high quality character design for romance experience"),
      ("personality_traits", .arr [.str "romantic", .str "beautiful", .str "loving", .str "elegant"])]),
   ("multiplayer", .obj
     [("basePrompt", .str "A social anime character with expressive features and bright eyes, casual social outfit with fun accessories, friendly communicative expression, open social pose, digital art, transparent background, high quality character design for multiplayer interaction"),
      ("personality_traits", .arr [.str "social", .str "communicative", .str "friendly", .str "expressive"])]),
   ("markov_example", .obj
     [("basePrompt", .str "An intelligent anime character with thoughtful features and curious eyes, smart casual outfit, contemplative expression showing intelligence, digital art, transparent background, high quality character design for AI-powered dialog system"),
      ("personality_traits", .arr [.str "intelligent", .str "thoughtful", .str "curious", .str "analytical"])]),
   ("llm_example", .obj
     [("basePrompt", .str "A futuristic anime character with tech-savvy features and bright eyes, modern outfit with tech accessories, intelligent expression, digital art, transparent background, high quality character design for LLM integration"),
      ("personality_traits", .arr [.str "futuristic", .str "tech-savvy", .str "intelligent", .str "modern"])]),
   ("news_example", .obj
     [("basePrompt", .str "A knowledgeable anime character with sharp features and attentive eyes, professional casual outfit, informed and alert expression, digital art, transparent background, high quality character design for news and information features"),
      ("personality_traits", .arr [.str "knowledgeable", .str "professional", .str "informed", .str "alert"])])]

/-- `standard_animations` literal of `get_character_asset_config`
(lines 139–218), before the conditional battle/character additions. -/
def standard_animations : Obj :=
  [("idle", .obj
     [("promptModifier", .str "standing calmly with arms at sides, peaceful neutral expression, slight smile, relaxed pose"),
      ("negativePrompt", .str "angry, aggressive, dark, scary, low quality, blurry"),
      ("stateDescription", .str "Default calm state"),
      ("frameCount", .num 6)]),
   ("talking", .obj
     [("promptModifier", .str "speaking with hand gestures, mouth slightly open, expressive face, animated pose, welcoming expression"),
      ("negativePrompt", .str "silent, static, angry expression, dark mood"),
      ("stateDescription", .str "Speaking or interacting with user"),
      ("frameCount", .num 8)]),
   ("happy", .obj
     [("promptModifier", .str "bright cheerful smile, eyes sparkling with joy, hands clasped together or raised, radiant expression"),
      ("negativePrompt", .str "sad, angry, neutral expression, dark colors"),
      ("stateDescription", .str "Joyful and excited state"),
      ("frameCount", .num 6)]),
   ("sad", .obj
     [("promptModifier", .str "downcast eyes, gentle frown, hand touching cheek or covering face, melancholic but still beautiful"),
      ("negativePrompt", .str "happy, cheerful, bright colors, aggressive"),
      ("stateDescription", .str "Sad or disappointed state"),
      ("frameCount", .num 4)]),
   ("hungry", .obj
     [("promptModifier", .str "looking longingly at food, hand on stomach, slightly droopy expression, cute hungry pose"),
      ("negativePrompt", .str "full, satisfied, eating, aggressive"),
      ("stateDescription", .str "Hungry and wanting food"),
      ("frameCount", .num 5)]),
   ("eating", .obj
     [("promptModifier", .str "eating food happily, content expression, food in hands or near mouth, satisfied pose"),
      ("negativePrompt", .str "hungry, sad, empty hands, aggressive"),
      ("stateDescription", .str "Eating and satisfied"),
      ("frameCount", .num 6)]),
   ("blushing", .obj
     [("promptModifier", .str "soft pink blush on cheeks, shy smile, one hand near face, averting gaze slightly, cute embarrassed expression"),
      ("negativePrompt", .str "confident, bold, angry, dark mood"),
      ("stateDescription", .str "Shy and blushing romantic state"),
      ("frameCount", .num 5)]),
   ("heart_eyes", .obj
     [("promptModifier", .str "heart-shaped pupils or sparkles in eyes, loving expression, hands near heart, surrounded by floating hearts"),
      ("negativePrompt", .str "normal eyes, angry, sad, dark mood"),
      ("stateDescription", .str "In love or adoring state"),
      ("frameCount", .num 6)]),
   ("shy", .obj
     [("promptModifier", .str "looking down shyly, hands clasped behind back or in front, timid expression, cute shy pose"),
      ("negativePrompt", .str "confident, bold, outgoing, aggressive"),
      ("stateDescription", .str "Timid and shy state"),
      ("frameCount", .num 4)]),
   ("flirty", .obj
     [("promptModifier", .str "playful wink or flirty smile, confident pose, one hand on hip or touching hair, charming expression"),
      ("negativePrompt", .str "shy, timid, serious, angry"),
      ("stateDescription", .str "Flirty and charming state"),
      ("frameCount", .num 7)]),
   ("romantic_idle", .obj
     [("promptModifier", .str "gentle romantic expression, soft smile, dreamy eyes, peaceful romantic pose"),
      ("negativePrompt", .str "aggressive, angry, rushed, unromantic"),
      ("stateDescription", .str "Peaceful romantic state"),
      ("frameCount", .num 5)]),
   ("jealous", .obj
     [("promptModifier", .str "slightly pouting expression, arms crossed, looking away with subtle jealous expression"),
      ("negativePrompt", .str "happy, content, peaceful, aggressive"),
      ("stateDescription", .str "Jealous or envious state"),
      ("frameCount", .num 4)]),
   ("excited_romance", .obj
     [("promptModifier", .str "excited happy expression with romantic sparkles, jumping or energetic pose, love-struck appearance"),
      ("negativePrompt", .str "calm, sad, angry, static"),
      ("stateDescription", .str "Excited romantic state"),
      ("frameCount", .num 8)])]

/-- The battle animations added by `standard_animations.update({...})` when
`battleSystem.enabled` is truthy (lines 221–238). -/
def battle_animation_updates : Obj :=
  [("attack", .obj
     [("promptModifier", .str "dynamic attack pose, concentrated expression, action stance, power effects"),
      ("stateDescription", .str "Attacking in battle"),
      ("frameCount", .num 8)]),
   ("defend", .obj
     [("promptModifier", .str "defensive stance, protective pose, focused expression, shield or guard position"),
      ("stateDescription", .str "Defending in battle"),
      ("frameCount", .num 6)]),
   ("heal", .obj
     [("promptModifier", .str "gentle healing pose, hands glowing with soft light, caring expression, restorative energy"),
      ("stateDescription", .str "Healing or supporting"),
      ("frameCount", .num 7)])]

/-- The `magical` animation added when `char_name == "aria_luna"` (lines 242–252). -/
def aria_luna_magical : JSON :=
  .obj
    [("promptModifier", .str "casting magic spell, hands glowing with celestial energy, intense concentration, robes flowing dramatically, magical circles and symbols"),
     ("stateDescription", .str "Using magical powers"),
     ("frameCount", .num 10),
     ("customSettings", .obj
       [("qualitySettings", .obj [("steps", .num 30), ("cfgScale", .num 8.0)])])]

/-- The `sleeping` animation added when `char_name == "aria_luna"` (lines 253–257). -/
def aria_luna_sleeping : JSON :=
  .obj
    [("promptModifier", .str "peaceful sleeping pose, eyes closed, serene expression, sitting or reclining position, soft glow"),
     ("stateDescription", .str "Resting or sleeping state"),
     ("frameCount", .num 4)]

/-- The `sleeping` animation added when `char_name == "specialist"` (lines 258–263). -/
def specialist_sleeping : JSON :=
  .obj
    [("promptModifier", .str "very sleepy expression, eyes drooping or closed, yawning, tired but content pose"),
     ("stateDescription", .str "Sleepy and tired state"),
     ("frameCount", .num 4)]

/-- Python `d.update(u)`: set each entry of `u` in order. -/
def dictUpdate (d u : Obj) : Obj :=
  u.foldl (fun d p => setKey d p.1 p.2) d

/-- `char_data.get("battleSystem", {}).get("enabled", False)` used as an
`if` condition (line 221): truthiness of the `enabled` entry, `False` when
`battleSystem` is absent.  When `battleSystem` is present but not a dict
the source raises `AttributeError` (no result): modelled as `none`. -/
def battleSystemEnabledFlag (char_data : Obj) : Option Bool :=
  match lookupKey char_data "battleSystem" with
  | none => some false
  | some (.obj b) => some (truthyKey b "enabled")
  | some _ => none

/-- `get_character_asset_config(char_name, char_data)` (lines 13–272).
`none` exactly when the source would raise (non-dict `battleSystem`). -/
def get_character_asset_config (char_name : String) (char_data : Obj) : Option JSON :=
  (battleSystemEnabledFlag char_data).map (fun battleEnabled =>
    let char_config := (lookupKey character_configs char_name).getD
      ((lookupKey character_configs "default").getD .null)
    let anims := if battleEnabled then dictUpdate standard_animations battle_animation_updates
                 else standard_animations
    let anims :=
      if char_name = "aria_luna" then
        setKey (setKey anims "magical" aria_luna_magical) "sleeping" aria_luna_sleeping
      else if char_name = "specialist" then
        setKey anims "sleeping" specialist_sleeping
      else anims
    .obj ([("basePrompt", (lookupKey (objOf char_config) "basePrompt").getD .null),
           ("animationMappings", .obj anims)] ++ base_config))

/-- Default `randomEvents` list injected by `add_missing_features_to_character`
(lines 282–297). -/
def randomEvents_default : JSON :=
  .arr
    [.obj
      [("name", .str "spontaneous_moment"),
       ("description", .str "A delightful spontaneous interaction"),
       ("probability", .num 0.05),
       ("effects", .obj [("happiness", .num 10), ("affection", .num 5)]),
       ("animations", .arr [.str "happy", .str "talking"]),
       ("responses", .arr
         [.str "What a lovely surprise! I\x27m so happy to share this moment with you! 😊",
          .str "Life is full of wonderful unexpected moments like this! ✨",
          .str "These spontaneous times together are what I treasure most! 💕"]),
       ("cooldown", .num 1800)]]

/-- Default `dialogBackend` stub (lines 300–324). -/
def dialogBackend_default : JSON :=
  .obj
    [("enabled", .bool true),
     ("defaultBackend", .str "markov_chain"),
     ("fallbackChain", .arr [.str "simple_random"]),
     ("confidenceThreshold", .num 0.6),
     ("backends", .obj
       [("markov_chain", .obj
         [("chainOrder", .num 2),
          ("minWords", .num 3),
          ("maxWords", .num 12),
          ("temperatureMin", .num 0.4),
          ("temperatureMax", .num 0.7),
          ("usePersonality", .bool true),
          ("trainingData", .arr
            [.str "Hello! I\x27m so happy to see you again!",
             .str "How are you doing today? You look wonderful!",
             .str "Thanks for visiting me! I love spending time with you.",
             .str "Your presence always brightens my day!",
             .str "What would you like to talk about today?",
             .str "I\x27m here if you need someone to chat with!"])])])]

/-- Default `giftSystem` stub (lines 326–347). -/
def giftSystem_default : JSON :=
  .obj
    [("enabled", .bool true),
     ("inventorySettings", .obj
       [("maxSlots", .num 8), ("autoSort", .bool true), ("stackSimilar", .bool true)]),
     ("preferences", .obj
       [("favoriteCategories", .arr [.str "food", .str "flowers", .str "books"]),
        ("personalityModifiers", .obj
          [("food", .num 1.3), ("flowers", .num 1.5), ("books", .num 1.2)])]),
     ("memorySettings", .obj
       [("rememberGifts", .bool true), ("trackPreferences", .bool true),
        ("learningEnabled", .bool true)])]

/-- Default `multiplayer` stub (lines 349–357); the `networkID` interpolates
the character name. -/
def multiplayer_default (char_name : String) : JSON :=
  .obj
    [("enabled", .bool true),
     ("botCapable", .bool false),
     ("networkID", .str (char_name ++ "_companion_v1")),
     ("maxPeers", .num 5),
     ("socialLevel", .str "moderate"),
     ("networkPersonality", .str "friendly")]

/-- Default `newsFeatures` stub (lines 359–367). -/
def newsFeatures_default : JSON :=
  .obj
    [("enabled", .bool true),
     ("updateInterval", .num 1800),
     ("maxStoredItems", .num 20),
     ("readingPersonality", .str "casual"),
     ("preferredCategories", .arr [.str "general", .str "lifestyle"]),
     ("feeds", .arr [])]

/-- Default `battleSystem` stub (lines 369–380). -/
def battleSystem_default : JSON :=
  .obj
    [("enabled", .bool true),
     ("aiDifficulty", .str "balanced"),
     ("battleStats", .obj
       [("hp", .obj [("base", .num 75), ("growth", .num 2.5)]),
        ("attack", .obj [("base", .num 12), ("growth", .num 1.8)]),
        ("defense", .obj [("base", .num 10), ("growth", .num 2.0)]),
        ("speed", .obj [("base", .num 8), ("growth", .num 1.5)])]),
     ("availableActions", .arr [.str "attack", .str "defend", .str "heal"])]

/-- Default `generalEvents` list (lines 382–403). -/
def generalEvents_default : JSON :=
  .arr
    [.obj
      [("name", .str "friendly_chat"),
       ("description", .str "A casual conversation moment"),
       ("responses", .arr
         [.str "I\x27ve been thinking about our friendship today! 😊",
          .str "What\x27s been on your mind lately?",
          .str "I love our little conversations!"]),
       ("choices", .arr
         [.obj
           [("text", .str "Share your thoughts"),
            ("effects", .obj [("happiness", .num 5), ("affection", .num 3)]),
            ("responses", .arr [.str "Thank you for sharing! I really appreciate that! 💕"]),
            ("animation", .str "happy")]]),
       ("cooldown", .num 3600),
       ("category", .str "conversation")]]

/-- Default `progression` stub (lines 405–424). -/
def progression_default : JSON :=
  .obj
    [("levels", .arr
      [.obj [("name", .str "New Friend"),
             ("requirement", .obj [("age", .num 0)]),
             ("size", .num 128)],
       .obj [("name", .str "Good Friend"),
             ("requirement", .obj [("age", .num 86400), ("affection", .num 20)]),
             ("size", .num 132)],
       .obj [("name", .str "Close Friend"),
             ("requirement", .obj [("age", .num 259200), ("affection", .num 45), ("trust", .num 30)]),
             ("size", .num 136)]])]

/-- Default `behavior` stub (lines 426–431). -/
def behavior_default : JSON :=
  .obj
    [("idleTimeout", .num 30),
     ("movementEnabled", .bool true),
     ("defaultSize", .num 128)]

/-- The eight fill-if-absent subsystem injections of
`add_missing_features_to_character`, in source order (lines 300–431): each
is guarded only by `if "key" not in char_data`. -/
def subsystem_defaults (char_name : String) : Obj :=
  [("dialogBackend", dialogBackend_default),
   ("giftSystem", giftSystem_default),
   ("multiplayer", multiplayer_default char_name),
   ("newsFeatures", newsFeatures_default),
   ("battleSystem", battleSystem_default),
   ("generalEvents", generalEvents_default),
   ("progression", progression_default),
   ("behavior", behavior_default)]

/-- `if key not in d: d[key] = v`. -/
def fillAbsent (d : Obj) (k : String) (v : JSON) : Obj :=
  if hasKey d k then d else setKey d k v

/-- Run a list of fill-if-absent injections in order. -/
def fillChain (defaults : Obj) (d : Obj) : Obj :=
  defaults.foldl (fun d p => fillAbsent d p.1 p.2) d

/-- `add_missing_features_to_character(char_name, char_data)` (lines 274–433).
`none` exactly when the source would raise (which can only happen inside
`get_character_asset_config`, i.e. when `assetGeneration` is absent and
`battleSystem` is present but not a dict). -/
def add_missing_features_to_character (char_name : String) (char_data : Obj) : Option Obj :=
  let step1 : Option Obj :=
    if hasKey char_data "assetGeneration" then some char_data
    else (get_character_asset_config char_name char_data).map (setKey char_data "assetGeneration")
  step1.map (fun d =>
    let d := if truthyKey d "randomEvents" then d else setKey d "randomEvents" randomEvents_default
    fillChain (subsystem_defaults char_name) d)

/-! ## Embedding of `src/comprehensive_asset_update.py` -/

/-- `standard_mappings` literal of `get_comprehensive_asset_config`
(lines 93–260): the full animation catalog, including battle and
character-specific entries. -/
def standard_mappings : Obj :=
  [("idle", .obj
     [("promptModifier", .str "standing calmly with arms at sides, peaceful neutral expression, slight smile, relaxed pose"),
      ("negativePrompt", .str "angry, aggressive, dark, scary, low quality, blurry"),
      ("stateDescription", .str "Default calm state"),
      ("frameCount", .num 6)]),
   ("talking", .obj
     [("promptModifier", .str "speaking with hand gestures, mouth slightly open, expressive face, animated pose, welcoming expression"),
      ("negativePrompt", .str "silent, static, angry expression, dark mood"),
      ("stateDescription", .str "Speaking or interacting with user"),
      ("frameCount", .num 8)]),
   ("happy", .obj
     [("promptModifier", .str "bright cheerful smile, eyes sparkling with joy, hands clasped together or raised, radiant expression"),
      ("negativePrompt", .str "sad, angry, neutral expression, dark colors"),
      ("stateDescription", .str "Joyful and excited state"),
      ("frameCount", .num 6)]),
   ("sad", .obj
     [("promptModifier", .str "downcast eyes, gentle frown, hand touching cheek or covering face, melancholic but still beautiful"),
      ("negativePrompt", .str "happy, cheerful, bright colors, aggressive"),
      ("stateDescription", .str "Sad or disappointed state"),
      ("frameCount", .num 4)]),
   ("hungry", .obj
     [("promptModifier", .str "looking longingly at food, hand on stomach, slightly droopy expression, cute hungry pose"),
      ("negativePrompt", .str "full, satisfied, eating, aggressive"),
      ("stateDescription", .str "Hungry and wanting food"),
      ("frameCount", .num 5)]),
   ("eating", .obj
     [("promptModifier", .str "eating food happily, content expression, food in hands or near mouth, satisfied pose"),
      ("negativePrompt", .str "hungry, sad, empty hands, aggressive"),
      ("stateDescription", .str "Eating and satisfied"),
      ("frameCount", .num 6)]),
   ("blushing", .obj
     [("promptModifier", .str "soft pink blush on cheeks, shy smile, one hand near face, averting gaze slightly, cute embarrassed expression"),
      ("negativePrompt", .str "confident, bold, angry, dark mood"),
      ("stateDescription", .str "Shy and blushing romantic state"),
      ("frameCount", .num 5)]),
   ("heart_eyes", .obj
     [("promptModifier", .str "heart-shaped pupils or sparkles in eyes, loving expression, hands near heart, surrounded by floating hearts"),
      ("negativePrompt", .str "normal eyes, angry, sad, dark mood"),
      ("stateDescription", .str "In love or adoring state"),
      ("frameCount", .num 6)]),
   ("shy", .obj
     [("promptModifier", .str "looking down shyly, hands clasped behind back or in front, timid expression, cute shy pose"),
      ("negativePrompt", .str "confident, bold, outgoing, aggressive"),
      ("stateDescription", .str "Timid and shy state"),
      ("frameCount", .num 4)]),
   ("flirty", .obj
     [("promptModifier", .str "playful wink or flirty smile, confident pose, one hand on hip or touching hair, charming expression"),
      ("negativePrompt", .str "shy, timid, serious, angry"),
      ("stateDescription", .str "Flirty and charming state"),
      ("frameCount", .num 7)]),
   ("romantic_idle", .obj
     [("promptModifier", .str "gentle romantic expression, soft smile, dreamy eyes, peaceful romantic pose"),
      ("negativePrompt", .str "aggressive, angry, rushed, unromantic"),
      ("stateDescription", .str "Peaceful romantic state"),
      ("frameCount", .num 5)]),
   ("jealous", .obj
     [("promptModifier", .str "slightly pouting expression, arms crossed, looking away with subtle jealous expression"),
      ("negativePrompt", .str "happy, content, peaceful, aggressive"),
      ("stateDescription", .str "Jealous or envious state"),
      ("frameCount", .num 4)]),
   ("excited_romance", .obj
     [("promptModifier", .str "excited happy expression with romantic sparkles, jumping or energetic pose, love-struck appearance"),
      ("negativePrompt", .str "calm, sad, angry, static"),
      ("stateDescription", .str "Excited romantic state"),
      ("frameCount", .num 8)]),
   ("magical", .obj
     [("promptModifier", .str "casting magic spell, hands glowing with celestial energy, intense concentration, robes flowing dramatically, magical circles and symbols"),
      ("stateDescription", .str "Using magical powers"),
      ("frameCount", .num 10),
      ("customSettings", .obj
        [("qualitySettings", .obj [("steps", .num 30), ("cfgScale", .num 8.0)])])]),
   ("sleeping", .obj
     [("promptModifier", .str "peaceful sleeping pose, eyes closed, serene expression, sitting or reclining position, soft glow"),
      ("stateDescription", .str "Resting or sleeping state"),
      ("frameCount", .num 4)]),
   ("thinking", .obj
     [("promptModifier", .str "thoughtful expression, hand near chin, contemplative pose, focused look"),
      ("stateDescription", .str "Thinking or processing information"),
      ("frameCount", .num 5)]),
   ("excited", .obj
     [("promptModifier", .str "energetic bouncing motion, wide smile, enthusiastic pose, dynamic expression"),
      ("stateDescription", .str "Excited and energetic state"),
      ("frameCount", .num 8)]),
   ("reading", .obj
     [("promptModifier", .str "reading a book or document, focused expression, holding reading material, intellectual pose"),
      ("stateDescription", .str "Reading or studying information"),
      ("frameCount", .num 6)]),
   ("critical", .obj
     [("promptModifier", .str "stern or disapproving expression, arms crossed, serious demeanor, demanding pose"),
      ("stateDescription", .str "Critical or demanding state"),
      ("frameCount", .num 5)]),
   ("demanding", .obj
     [("promptModifier", .str "authoritative pose, pointing gesture, expectant expression, commanding presence"),
      ("stateDescription", .str "Making demands or requests"),
      ("frameCount", .num 6)]),
   ("boost", .obj
     [("promptModifier", .str "energized and motivated expression, fist pump or celebratory pose, boosted confidence"),
      ("stateDescription", .str "Boosted or energized state"),
      ("frameCount", .num 7)]),
   ("comforting", .obj
     [("promptModifier", .str "gentle caring expression, open arms, nurturing pose, warm and supportive demeanor"),
      ("stateDescription", .str "Providing comfort and support"),
      ("frameCount", .num 6)]),
   ("caring", .obj
     [("promptModifier", .str "attentive and loving expression, reaching out gesture, caring pose, protective stance"),
      ("stateDescription", .str "Showing care and concern"),
      ("frameCount", .num 5)]),
   ("attack", .obj
     [("promptModifier", .str "dynamic attack pose, concentrated expression, action stance, power effects"),
      ("stateDescription", .str "Attacking in battle"),
      ("frameCount", .num 8)]),
   ("defend", .obj
     [("promptModifier", .str "defensive stance, protective pose, focused expression, shield or guard position"),
      ("stateDescription", .str "Defending in battle"),
      ("frameCount", .num 6)]),
   ("heal", .obj
     [("promptModifier", .str "gentle healing pose, hands glowing with soft light, caring expression, restorative energy"),
      ("stateDescription", .str "Healing or supporting"),
      ("frameCount", .num 7)]),
   ("victory", .obj
     [("promptModifier", .str "triumphant pose, victory sign or raised fist, celebratory expression, winner stance"),
      ("stateDescription", .str "Celebrating victory"),
      ("frameCount", .num 8)]),
   ("defeat", .obj
     [("promptModifier", .str "disappointed but graceful expression, hand on heart, accepting pose, respectful demeanor"),
      ("stateDescription", .str "Accepting defeat gracefully"),
      ("frameCount", .num 5)]),
   ("special", .obj
     [("promptModifier", .str "charging special ability, concentrated energy gathering, dramatic pose, power buildup"),
      ("stateDescription", .str "Preparing special attack"),
      ("frameCount", .num 10)])]

/-- `core_animations` of `get_comprehensive_asset_config` (line 275). -/
def core_animations : List String :=
  ["idle", "talking", "happy", "sad", "hungry", "eating"]

/-- The generic descriptor synthesized for an animation name not present in
`standard_mappings` (lines 268–272). -/
def generic_mapping (anim_name : String) : JSON :=
  .obj
    [("promptModifier", .str ("expressive pose and animation for " ++ anim_name ++ " state, character showing " ++ anim_name ++ " emotion or action")),
     ("stateDescription", .str ("Character in " ++ anim_name ++ " state")),
     ("frameCount", .num 6)]

/-- Body of the loop over `existing_animations.keys()` (lines 263–272):
copy the catalog descriptor when the name is known, else synthesize the
generic one. -/
def map_existing_step (m : Obj) (anim_name : String) : Obj :=
  if hasKey standard_mappings anim_name then
    setKey m anim_name ((lookupKey standard_mappings anim_name).getD .null)
  else
    setKey m anim_name (generic_mapping anim_name)

/-- Body of the loop over `core_animations` (lines 276–278): fill a core
name from the catalog when absent. -/
def force_core_step (m : Obj) (core_anim : String) : Obj :=
  if hasKey m core_anim then m
  else setKey m core_anim ((lookupKey standard_mappings core_anim).getD .null)

/-- The animation-mapping merge of `get_comprehensive_asset_config`
(lines 262–284): map every existing animation name, force the core set,
then apply the archetype-conditional additions.  `existing_names` is
`char_data.get("animations", {}).keys()` in iteration order.  -/
def merge_animation_mappings (existing_names : List String) (archetype : String) : Obj :=
  let m := existing_names.foldl map_existing_step []
  let m := core_animations.foldl force_core_step m
  let m := if archetype = "aria_luna" && !hasKey m "magical" then
      setKey m "magical" ((lookupKey standard_mappings "magical").getD .null)
    else m
  let m := if (archetype = "specialist" || archetype = "aria_luna") && !hasKey m "sleeping" then
      setKey m "sleeping" ((lookupKey standard_mappings "sleeping").getD .null)
    else m
  m

/-- `determine_character_archetype(char_name, char_data, file_path)`
(lines 295–366), with the description string passed directly (the source
reads it from `char_data.get("description", "")`). -/
def determine_character_archetype (char_name description file_path : String) : String :=
  let path_str := lowerStr file_path
  if strHas path_str "aria_luna" then "aria_luna"
  else if strHas path_str "tsundere" then
    (if strHas path_str "romance" then "romance_tsundere" else "tsundere")
  else if strHas path_str "flirty" then
    (if strHas path_str "romance" then "romance_flirty" else "flirty")
  else if strHas path_str "slow_burn" || strHas path_str "slowburn" then
    (if strHas path_str "romance" then "romance_slowburn" else "slow_burn")
  else if strHas path_str "supportive" then "romance_supportive"
  else if strHas path_str "romance" then "romance"
  else if strHas path_str "klippy" then "klippy"
  else if strHas path_str "easy" then "easy"
  else if strHas path_str "normal" then "normal"
  else if strHas path_str "hard" then "hard"
  else if strHas path_str "challenge" then "challenge"
  else if strHas path_str "specialist" then "specialist"
  else if strHas path_str "multiplayer" then
    (if strHas path_str "helper" then "helper_bot"
     else if strHas path_str "social" then "social_bot"
     else if strHas path_str "group" || strHas path_str "moderator" then "group_moderator"
     else if strHas path_str "shy" then "shy_companion"
     else "multiplayer")
  else if strHas path_str "markov" then "markov_example"
  else if strHas path_str "llm" then "llm_example"
  else if strHas path_str "news" then "news_example"
  else
    let name_desc := lowerStr (char_name ++ " " ++ description)
    if strHas name_desc "tsundere" then "tsundere"
    else if strHas name_desc "flirty" then "flirty"
    else if strHas name_desc "shy" then "shy_companion"
    else if strHas name_desc "romance" then "romance"
    else if strHas name_desc "multiplayer" || strHas name_desc "social" then "multiplayer"
    else if strHas name_desc "news" then "news_example"
    else if strHas name_desc "helper" then "helper_bot"
    else "default"

/-! ## Embedding of `src/scripts/validate_characters.py`

The file-level JSON-syntax check (`validate_json_syntax`) and file loading
are excluded I/O collaborators; the embedding starts from the parsed
`char_data` document.  The filesystem consulted by
`validate_animation_paths` is abstracted as a predicate `fs_exists`. -/

/-- `required_fields` of `validate_required_fields` (line 29). -/
def required_fields : List String := ["name", "description", "animations"]

/-- `required_animations` of `validate_required_fields` (line 36) — note:
the validator requires only these four names, not the six-element core set
used by the asset scripts. -/
def required_animations : List String := ["idle", "talking", "happy", "sad"]

/-- `validate_required_fields(char_data)` (lines 25–41). -/
def validate_required_fields (char_data : Obj) : List String :=
  let errors := required_fields.foldl (fun errors field =>
    if hasKey char_data field then errors
    else errors ++ ["Missing required field: " ++ field]) []
  if hasKey char_data "animations" then
    required_animations.foldl (fun errors anim =>
      if pyMem anim ((lookupKey char_data "animations").getD .null) then errors
      else errors ++ ["Missing required animation: " ++ anim]) errors
  else errors

/-- `validate_asset_generation(char_data)` (lines 43–103). -/
def validate_asset_generation (char_data : Obj) : List String :=
  match lookupKey char_data "assetGeneration" with
  | none => ["Missing assetGeneration configuration"]
  | some asset_gen =>
    let errors := ["basePrompt", "animationMappings", "generationSettings"].foldl
      (fun errors field =>
        if pyMem field asset_gen then errors
        else errors ++ ["assetGeneration missing required field: " ++ field]) []
    let errors :=
      if pyMem "basePrompt" asset_gen then
        let prompt := strOf ((lookupKey (objOf asset_gen) "basePrompt").getD .null)
        let errors :=
          if prompt = "" || prompt.length < 50 then
            errors ++ ["basePrompt should be at least 50 characters for quality generation"]
          else errors
        if !strHas (lowerStr prompt) "transparent background" then
          errors ++ ["basePrompt should include \x27transparent background\x27 for proper asset generation"]
        else errors
      else errors
    let errors :=
      if pyMem "animationMappings" asset_gen then
        let mappings := (lookupKey (objOf asset_gen) "animationMappings").getD .null
        required_animations.foldl (fun errors anim =>
          if !pyMem anim mappings then
            errors ++ ["assetGeneration missing required animation mapping: " ++ anim]
          else
            let mapping := (lookupKey (objOf mappings) anim).getD .null
            let errors :=
              if !pyMem "promptModifier" mapping then
                errors ++ ["Animation " ++ anim ++ " missing promptModifier"]
              else errors
            if !pyMem "stateDescription" mapping then
              errors ++ ["Animation " ++ anim ++ " missing stateDescription"]
            else errors) errors
      else errors
    let errors :=
      if pyMem "generationSettings" asset_gen then
        let settings := (lookupKey (objOf asset_gen) "generationSettings").getD .null
        let errors :=
          if !pyMem "model" settings then
            errors ++ ["generationSettings missing model specification"]
          else if !pyMemJSON ((lookupKey (objOf settings) "model").getD .null)
              (.arr [.str "flux1d", .str "flux1s", .str "sdxl"]) then
            errors ++ ["Unknown model: " ++ strOf ((lookupKey (objOf settings) "model").getD .null)]
          else errors
        let errors :=
          if !pyMem "artStyle" settings then
            errors ++ ["generationSettings missing artStyle"]
          else if !pyMemJSON ((lookupKey (objOf settings) "artStyle").getD .null)
              (.arr [.str "anime", .str "pixel_art", .str "realistic", .str "cartoon", .str "chibi"]) then
            errors ++ ["Unknown artStyle: " ++ strOf ((lookupKey (objOf settings) "artStyle").getD .null)]
          else errors
        if pyMem "resolution" settings then
          let resolution := (lookupKey (objOf settings) "resolution").getD .null
          if !pyMem "width" resolution || !pyMem "height" resolution then
            errors ++ ["resolution missing width or height"]
          else if !(JSON.beq ((lookupKey (objOf resolution) "width").getD .null) (.num 128)) ||
              !(JSON.beq ((lookupKey (objOf resolution) "height").getD .null) (.num 128)) then
            errors ++ ["resolution should be 128x128 for desktop companion compatibility"]
          else errors
        else errors
      else errors
    errors

/-- The `dialogBackend` section of `validate_feature_consistency`
(lines 110–117). -/
def dialogBackend_errors (char_data : Obj) : List String :=
  if hasKey char_data "dialogBackend" &&
      truthyKey (objOf ((lookupKey char_data "dialogBackend").getD .null)) "enabled" then
    let backend := (lookupKey char_data "dialogBackend").getD .null
    if !pyMem "backends" backend then
      ["dialogBackend enabled but no backends configured"]
    else if !pyMem "defaultBackend" backend then
      ["dialogBackend missing defaultBackend specification"]
    else if !pyMemJSON ((lookupKey (objOf backend) "defaultBackend").getD .null)
        ((lookupKey (objOf backend) "backends").getD (.obj [])) then
      ["dialogBackend defaultBackend not found in backends configuration"]
    else []
  else []

/-- The `giftSystem` section of `validate_feature_consistency` (lines 120–125). -/
def giftSystem_errors (char_data : Obj) : List String :=
  if hasKey char_data "giftSystem" &&
      truthyKey (objOf ((lookupKey char_data "giftSystem").getD .null)) "enabled" then
    let gift_system := (lookupKey char_data "giftSystem").getD .null
    (if !pyMem "preferences" gift_system then
      ["giftSystem enabled but preferences not configured"] else []) ++
    (if !pyMem "inventorySettings" gift_system then
      ["giftSystem enabled but inventorySettings not configured"] else [])
  else []

/-- The `multiplayer` section of `validate_feature_consistency` (lines 128–133). -/
def multiplayer_errors (char_data : Obj) : List String :=
  if hasKey char_data "multiplayer" &&
      truthyKey (objOf ((lookupKey char_data "multiplayer").getD .null)) "enabled" then
    let multiplayer := (lookupKey char_data "multiplayer").getD .null
    ["networkID", "networkPersonality"].foldl (fun errors field =>
      if pyMem field multiplayer then errors
      else errors ++ ["multiplayer enabled but missing " ++ field]) []
  else []

/-- The `battleSystem` section of `validate_feature_consistency` (lines 136–141). -/
def battleSystem_errors (char_data : Obj) : List String :=
  if hasKey char_data "battleSystem" &&
      truthyKey (objOf ((lookupKey char_data "battleSystem").getD .null)) "enabled" then
    let battle := (lookupKey char_data "battleSystem").getD .null
    (if !pyMem "battleStats" battle then
      ["battleSystem enabled but battleStats not configured"] else []) ++
    (if !pyMem "availableActions" battle then
      ["battleSystem enabled but availableActions not configured"] else [])
  else []

/-- The body of the stats loop of `validate_feature_consistency`
(lines 146–154) for a single `(stat_name, stat_config)` entry: entries that
are not dicts are skipped by the `isinstance(stat_config, dict)` guard, and
each comparison runs only when both compared keys are present. -/
def stat_entry_errors (stat_name : String) (stat_config : JSON) : List String :=
  match stat_config with
  | .obj cfg =>
      (if hasKey cfg "max" && hasKey cfg "initial" then
        (if numGT ((lookupKey cfg "initial").getD .null) ((lookupKey cfg "max").getD .null) then
          ["Stat " ++ stat_name ++ ": initial value exceeds maximum"]
         else [])
       else []) ++
      (if hasKey cfg "criticalThreshold" && hasKey cfg "max" then
        (if numGE ((lookupKey cfg "criticalThreshold").getD .null) ((lookupKey cfg "max").getD .null) then
          ["Stat " ++ stat_name ++ ": criticalThreshold should be less than maximum"]
         else [])
       else [])
  | _ => []

/-- The stats loop of `validate_feature_consistency` (lines 144–154) over
the entries of the `stats` dict, in order. -/
def stat_list_errors (stats : Obj) : List String :=
  stats.foldl (fun errors p => errors ++ stat_entry_errors p.1 p.2) []

/-- The `stats` section of `validate_feature_consistency` (lines 144–154):
absent `stats` is skipped; a non-dict `stats` makes the source raise on
`.items()` (no result), modelled as no errors. -/
def stats_consistency_errors (char_data : Obj) : List String :=
  match lookupKey char_data "stats" with
  | some (.obj stats) => stat_list_errors stats
  | _ => []

/-- `validate_feature_consistency(char_data)` (lines 105–156): the five
sections append to one `errors` list in source order. -/
def validate_feature_consistency (char_data : Obj) : List String :=
  dialogBackend_errors char_data ++ giftSystem_errors char_data ++
  multiplayer_errors char_data ++ battleSystem_errors char_data ++
  stats_consistency_errors char_data

/-- `Path.suffix` of CPython's pathlib: the final extension (with dot) of
the last path component, empty when the last dot is leading or trailing. -/
def pathSuffix (p : String) : String :=
  let name := (p.splitOn "/").getLastD p
  let cs := name.toList
  let dotIdxs := (cs.enum.filter (fun q => q.2 = '.')).map Prod.fst
  match dotIdxs.getLast? with
  | some i => if 0 < i ∧ i < cs.length - 1 then ⟨cs.drop i⟩ else ""
  | none => ""

/-- `validate_animation_paths(char_data, char_dir)` (lines 158–183), with
the filesystem abstracted as `fs_exists`.  The caller files these messages
under warnings. -/
def validate_animation_paths (fs_exists : String → Bool) (char_data : Obj) (char_dir : String) : List String :=
  match lookupKey char_data "animations" with
  | some (.obj animations) =>
      animations.foldl (fun errors p =>
        match p.2 with
        | .str anim_path =>
            let full_path :=
              if !startsWithList ['/'] anim_path.toList then char_dir ++ "/" ++ anim_path
              else anim_path
            let asset_gen := (lookupKey char_data "assetGeneration").getD (.obj [])
            if !asset_gen.truthy ||
                !pyMem p.1 ((lookupKey (objOf asset_gen) "animationMappings").getD (.obj [])) then
              if !fs_exists full_path then
                errors ++ ["Animation file not found: " ++ anim_path ++ " (for " ++ p.1 ++ ")"]
              else if !(lowerStr (pathSuffix full_path) = ".gif") then
                errors ++ ["Animation file should be GIF format: " ++ anim_path]
              else errors
            else errors
        | _ => errors) []
  | _ => []

/-- The per-profile Validation Result (`result` dict of
`validate_character_file`, lines 187–193). -/
structure ValidationResult where
  character : String
  path : String
  valid : Bool
  errors : List String
  warnings : List String
deriving Repr

/-- `validate_character_file(char_path)` from the parsed document onwards
(lines 185–242): the JSON-syntax/load early returns are excluded I/O.
`valid` starts `True` and is cleared at the end iff `errors` is nonempty. -/
def validate_character_file (fs_exists : String → Bool) (character path char_dir : String)
    (char_data : Obj) : ValidationResult :=
  let errors := validate_required_fields char_data
  let errors := errors ++ validate_asset_generation char_data
  let errors := errors ++ validate_feature_consistency char_data
  let warnings := validate_animation_paths fs_exists char_data char_dir
  let errors := errors ++
    (if pyLen ((lookupKey char_data "name").getD (.str "")) = 0 then
      ["Character name cannot be empty"] else [])
  let warnings := warnings ++
    (if pyLen ((lookupKey char_data "description").getD (.str "")) < 10 then
      ["Character description should be more descriptive (at least 10 characters)"] else [])
  let warnings := warnings ++
    (if !truthyKey char_data "personality" then
      ["Character missing personality configuration"] else [])
  { character := character, path := path, valid := errors.isEmpty,
    errors := errors, warnings := warnings }

/-! ## Embedding of `src/scripts/character_audit.py` -/

/-- `CORE_FEATURES` of `analyze_feature_coverage` (lines 39–42). -/
def CORE_FEATURES : List String :=
  ["dialogBackend", "giftSystem", "multiplayer", "newsFeatures",
   "battleSystem", "assetGeneration"]

/-- `ROMANCE_FEATURES` (lines 44–46). -/
def ROMANCE_FEATURES : List String :=
  ["personality", "romanceDialogs", "romanceEvents"]

/-- `INTERACTIVE_FEATURES` (lines 48–50). -/
def INTERACTIVE_FEATURES : List String :=
  ["generalEvents", "randomEvents", "progression", "interactions"]

/-- `BASIC_FEATURES` (lines 52–54). -/
def BASIC_FEATURES : List String :=
  ["animations", "dialogs", "behavior", "stats", "gameRules"]

/-- `ALL_FEATURES` (line 56): the audit's full feature-key vocabulary. -/
def ALL_FEATURES : List String :=
  CORE_FEATURES ++ ROMANCE_FEATURES ++ INTERACTIVE_FEATURES ++ BASIC_FEATURES

/-- The per-character missing-feature list of `analyze_feature_coverage`
(lines 62–70): a feature is counted present iff
`feature in char_data and char_data[feature]` (i.e. present and truthy). -/
def character_missing_features (char_data : Obj) : List String :=
  ALL_FEATURES.foldl (fun missing feature =>
    if truthyKey char_data feature then missing else missing ++ [feature]) []

/-- The fixed list of subsystem keys that
`add_missing_features_to_character` can inject, in source order
(lines 278–431). -/
def completer_feature_keys : List String :=
  ["assetGeneration", "randomEvents", "dialogBackend", "giftSystem",
   "multiplayer", "newsFeatures", "battleSystem", "generalEvents",
   "progression", "behavior"]

/-! ## Helper lemmas -/

/-- Is a value a dict? (`isinstance(v, dict)`). -/
def isObjB : JSON → Bool
  | .obj _ => true
  | _ => false

section FoldLemmas

/-- Error-collecting folds only ever append: anything already accumulated
stays in the result. -/
theorem mem_errFold_of_acc {α : Type} (c : α → Bool) (g : α → String) (L : List α)
    (acc : List String) (x : String) (hx : x ∈ acc) :
    x ∈ L.foldl (fun es a => if c a then es else es ++ [g a]) acc := by
  induction L generalizing acc with
  | nil => exact hx
  | cons a L ih =>
      by_cases h : c a = true
      · simpa [h] using ih acc hx
      · simp only [List.foldl_cons, h]
        exact ih _ (by simp [List.mem_append, hx])

/-- An element that fails its check contributes its message to an
error-collecting fold. -/
theorem mem_errFold_of_mem {α : Type} (c : α → Bool) (g : α → String) (L : List α)
    (acc : List String) (a : α) (ha : a ∈ L) (hc : c a = false) :
    g a ∈ L.foldl (fun es a => if c a then es else es ++ [g a]) acc := by
  induction L generalizing acc with
  | nil => cases ha
  | cons b L ih =>
      rcases List.mem_cons.mp ha with h | h
      · subst h
        simp only [List.foldl_cons, hc]
        exact mem_errFold_of_acc c g L _ _ (by simp)
      · exact ih _ h

/-- Left folds that only append factor through the accumulator. -/
theorem foldl_append_acc {α : Type} (f : α → List String) (L : List α) (acc : List String) :
    L.foldl (fun es a => es ++ f a) acc = acc ++ L.foldl (fun es a => es ++ f a) [] := by
  induction L generalizing acc with
  | nil => simp
  | cons a L ih =>
      simp only [List.foldl_cons, List.nil_append]
      rw [ih (acc ++ f a), ih (f a), List.append_assoc]

end FoldLemmas

section FillLemmas

theorem lookupKey_fillAbsent_ne (d : Obj) (k k' : String) (v : JSON) (h : k' ≠ k) :
    lookupKey (fillAbsent d k' v) k = lookupKey d k := by
  unfold fillAbsent
  split
  · rfl
  · exact lookupKey_setKey_ne d k k' v h

theorem hasKey_fillAbsent_self (d : Obj) (k : String) (v : JSON) :
    hasKey (fillAbsent d k v) k = true := by
  unfold fillAbsent
  split
  · assumption
  · exact hasKey_setKey_self d k v

theorem hasKey_fillAbsent_mono (d : Obj) (k k' : String) (v : JSON) (h : hasKey d k = true) :
    hasKey (fillAbsent d k' v) k = true := by
  by_cases hk : k' = k
  · subst hk
    exact hasKey_fillAbsent_self d k' v
  · unfold fillAbsent
    split
    · exact h
    · rw [hasKey_setKey_ne d k k' v hk]
      exact h

theorem fillAbsent_of_hasKey (d : Obj) (k : String) (v : JSON) (h : hasKey d k = true) :
    fillAbsent d k v = d := by
  simp [fillAbsent, h]

theorem lookupKey_fillChain_not_mem (L : Obj) (d : Obj) (k : String)
    (h : k ∉ L.map Prod.fst) :
    lookupKey (fillChain L d) k = lookupKey d k := by
  induction L generalizing d with
  | nil => rfl
  | cons p L ih =>
      simp only [List.map_cons, List.mem_cons] at h
      push_neg at h
      simp only [fillChain, List.foldl_cons]
      rw [show (List.foldl (fun d p => fillAbsent d p.1 p.2) (fillAbsent d p.1 p.2) L) =
            fillChain L (fillAbsent d p.1 p.2) from rfl]
      rw [ih (fillAbsent d p.1 p.2) h.2]
      exact lookupKey_fillAbsent_ne d k p.1 p.2 (fun he => h.1 he.symm)

theorem hasKey_fillChain_mono (L : Obj) (d : Obj) (k : String) (h : hasKey d k = true) :
    hasKey (fillChain L d) k = true := by
  induction L generalizing d with
  | nil => exact h
  | cons p L ih =>
      simp only [fillChain, List.foldl_cons]
      exact ih (fillAbsent d p.1 p.2) (hasKey_fillAbsent_mono d k p.1 p.2 h)

theorem lookupKey_fillChain_present (L : Obj) (d : Obj) (k : String) (h : hasKey d k = true) :
    lookupKey (fillChain L d) k = lookupKey d k := by
  induction L generalizing d with
  | nil => rfl
  | cons p L ih =>
      simp only [fillChain, List.foldl_cons]
      rw [show (List.foldl (fun d p => fillAbsent d p.1 p.2) (fillAbsent d p.1 p.2) L) =
            fillChain L (fillAbsent d p.1 p.2) from rfl]
      by_cases hk : p.1 = k
      · subst hk
        rw [fillAbsent_of_hasKey d p.1 p.2 h]
        exact ih d h
      · rw [ih (fillAbsent d p.1 p.2) (by rw [hasKey, lookupKey_fillAbsent_ne d k p.1 p.2 hk]; exact h)]
        exact lookupKey_fillAbsent_ne d k p.1 p.2 hk

theorem hasKey_fillChain_mem (L : Obj) (d : Obj) (k : String) (h : k ∈ L.map Prod.fst) :
    hasKey (fillChain L d) k = true := by
  induction L generalizing d with
  | nil => cases h
  | cons p L ih =>
      simp only [fillChain, List.foldl_cons]
      rcases List.mem_cons.mp h with he | hm
      · subst he
        exact hasKey_fillChain_mono L _ p.1 (hasKey_fillAbsent_self d p.1 p.2)
      · exact ih (fillAbsent d p.1 p.2) hm

theorem lookupKey_fillChain_absent_mem (L : Obj) (d : Obj) (k : String) (v : JSON)
    (hnd : (L.map Prod.fst).Nodup) (hmem : (k, v) ∈ L) (habs : hasKey d k = false) :
    lookupKey (fillChain L d) k = some v := by
  induction L generalizing d with
  | nil => cases hmem
  | cons p L ih =>
      simp only [List.map_cons, List.nodup_cons] at hnd
      simp only [fillChain, List.foldl_cons]
      rw [show (List.foldl (fun d p => fillAbsent d p.1 p.2) (fillAbsent d p.1 p.2) L) =
            fillChain L (fillAbsent d p.1 p.2) from rfl]
      rcases List.mem_cons.mp hmem with he | hm
      · rw [← he]
        rw [lookupKey_fillChain_not_mem L _ k (by rw [← he] at hnd; exact hnd.1)]
        unfold fillAbsent
        rw [habs]
        simp only [Bool.false_eq_true, if_false]
        exact lookupKey_setKey_self d k v
      · have hk : p.1 ≠ k := by
          intro he'
          exact hnd.1 (he' ▸ (List.mem_map.mpr ⟨(k, v), hm, rfl⟩))
        refine ih (fillAbsent d p.1 p.2) hnd.2 hm ?_
        rw [hasKey, lookupKey_fillAbsent_ne d k p.1 p.2 hk]
        exact habs

theorem fillChain_id (L : Obj) (d : Obj) (h : ∀ k ∈ L.map Prod.fst, hasKey d k = true) :
    fillChain L d = d := by
  induction L generalizing d with
  | nil => rfl
  | cons p L ih =>
      simp only [fillChain, List.foldl_cons]
      rw [fillAbsent_of_hasKey d p.1 p.2 (h p.1 (by simp))]
      exact ih d (fun k hk => h k (by simp [hk]))

end FillLemmas

/-- `stat_list_errors` processes entries left to right, appending. -/
theorem stat_list_errors_cons (p : String × JSON) (rest : Obj) :
    stat_list_errors (p :: rest) = stat_entry_errors p.1 p.2 ++ stat_list_errors rest := by
  simp only [stat_list_errors, List.foldl_cons, List.nil_append]
  exact foldl_append_acc (fun p => stat_entry_errors p.1 p.2) rest _

/-! ## Claims -/

/-- **C6**: for every Validation Result produced by validating a profile,
`valid` is true iff `errors` is empty, and warnings (the only part of the
result that can depend on the filesystem) never affect validity. -/
theorem C6_valid_iff_errors_empty (fs fs' : String → Bool)
    (character path char_dir : String) (char_data : Obj) :
    ((validate_character_file fs character path char_dir char_data).valid = true ↔
      (validate_character_file fs character path char_dir char_data).errors = []) ∧
    (validate_character_file fs character path char_dir char_data).valid =
      (validate_character_file fs' character path char_dir char_data).valid := by
  refine ⟨?_, rfl⟩
  simp only [validate_character_file]
  exact List.isEmpty_iff

/-- **C9**: when `assetGeneration` is absent the asset-generation stage
reports exactly the single error `"Missing assetGeneration configuration"`
and performs none of the sub-field checks, so no sub-field error can
appear. -/
theorem C9_missing_assetGeneration_single_error (char_data : Obj)
    (h : hasKey char_data "assetGeneration" = false) :
    validate_asset_generation char_data = ["Missing assetGeneration configuration"] := by
  have hn : lookupKey char_data "assetGeneration" = none := (hasKey_eq_false_iff _ _).mp h
  unfold validate_asset_generation
  rw [hn]

/-- Witness for C9 at the empty profile. -/
theorem C9_witness :
    hasKey [] "assetGeneration" = false ∧
    validate_asset_generation [] = ["Missing assetGeneration configuration"] :=
  ⟨rfl, C9_missing_assetGeneration_single_error [] rfl⟩

/-- **C2 (amended)**: when the `animations` mapping is present, each of the
validator's four required animation names (`idle`, `talking`, `happy`,
`sad`) that is absent from it contributes a missing-required-animation
error naming it.  (The source checks only these four names, not the
six-name core set of the asset scripts.) -/
theorem C2_missing_required_animation_error (char_data : Obj) (anims : Obj)
    (h : lookupKey char_data "animations" = some (.obj anims)) :
    ∀ anim ∈ required_animations, hasKey anims anim = false →
      ("Missing required animation: " ++ anim) ∈ validate_required_fields char_data := by
  intro anim ha hfalse
  have hk : hasKey char_data "animations" = true := by simp [hasKey, h]
  unfold validate_required_fields
  simp only [hk, if_true, h, Option.getD_some]
  exact mem_errFold_of_mem _ _ _ _ anim ha (by simp [pyMem, pyMemJSON, hfalse])

/-- Witness for C2's amended theorem: an empty animations dict is missing
`idle`. -/
theorem C2_witness :
    ("Missing required animation: " ++ "idle") ∈
      validate_required_fields [("animations", JSON.obj [])] :=
  C2_missing_required_animation_error [("animations", JSON.obj [])] [] rfl "idle"
    (by decide) rfl

/-- **C2 counterexample**: a profile whose animations mapping has exactly
`idle`, `talking`, `happy`, `sad` (so `hungry` is absent) produces no
errors at all from `validate_required_fields` — in particular no
missing-required-animation error naming `hungry`, contradicting the claim
that all six core names are required. -/
theorem C2_counterexample :
    pyMem "hungry" ((lookupKey
      [("name", JSON.str "Test"), ("description", JSON.str "A test profile"),
       ("animations", JSON.obj
         [("idle", JSON.str "animations/idle.gif"),
          ("talking", JSON.str "animations/talking.gif"),
          ("happy", JSON.str "animations/happy.gif"),
          ("sad", JSON.str "animations/sad.gif")])] "animations").getD .null) = false ∧
    validate_required_fields
      [("name", JSON.str "Test"), ("description", JSON.str "A test profile"),
       ("animations", JSON.obj
         [("idle", JSON.str "animations/idle.gif"),
          ("talking", JSON.str "animations/talking.gif"),
          ("happy", JSON.str "animations/happy.gif"),
          ("sad", JSON.str "animations/sad.gif")])] = [] :=
  ⟨rfl, rfl⟩

/-- **C3 (amended)**: a lowercased path containing both `"tsundere"` and
`"romance"` — and not containing `"aria_luna"`, whose rule is checked
first — classifies as `romance_tsundere`, never `tsundere`. -/
theorem C3_tsundere_romance_refinement (char_name description file_path : String)
    (ht : strHas (lowerStr file_path) "tsundere" = true)
    (hr : strHas (lowerStr file_path) "romance" = true)
    (ha : strHas (lowerStr file_path) "aria_luna" = false) :
    determine_character_archetype char_name description file_path = "romance_tsundere" := by
  unfold determine_character_archetype
  simp [ha, ht, hr]

/-- Witness for C3's amended theorem. -/
theorem C3_witness :
    strHas (lowerStr "characters/romance/tsundere_girl/character.json") "tsundere" = true ∧
    strHas (lowerStr "characters/romance/tsundere_girl/character.json") "romance" = true ∧
    strHas (lowerStr "characters/romance/tsundere_girl/character.json") "aria_luna" = false ∧
    determine_character_archetype "Himari" "a proud girl"
      "characters/romance/tsundere_girl/character.json" = "romance_tsundere" :=
  ⟨rfl, rfl, rfl, C3_tsundere_romance_refinement _ _ _ rfl rfl rfl⟩

/-- **C3 counterexample**: a path containing both `"tsundere"` and
`"romance"` but also `"aria_luna"` classifies as `aria_luna`, because the
`aria_luna` path rule is checked before the tsundere rule — so the claim
as stated (any path with both substrings yields `romance_tsundere`) is
false. -/
theorem C3_counterexample :
    strHas (lowerStr "aria_luna_romance_tsundere") "tsundere" = true ∧
    strHas (lowerStr "aria_luna_romance_tsundere") "romance" = true ∧
    determine_character_archetype "x" "" "aria_luna_romance_tsundere" = "aria_luna" ∧
    ("aria_luna" : String) ≠ "romance_tsundere" :=
  ⟨rfl, rfl, rfl, by decide⟩

/-- **C10**: a stats entry whose value is not a dict is skipped with no
error (and, the stats section producing only errors, no warning either):
removing all non-dict entries leaves the stats errors unchanged.  The
`isinstance` guard means the comparisons and indexing never run for such
entries, so no exception is possible; each comparison runs only when both
compared keys are present (explicit in `stat_entry_errors`). -/
theorem C10_nondict_stat_entries_skipped :
    (∀ (stat_name : String) (v : JSON), isObjB v = false →
      stat_entry_errors stat_name v = []) ∧
    (∀ stats : Obj,
      stat_list_errors stats = stat_list_errors (stats.filter (fun p => isObjB p.2))) := by
  constructor
  · intro n v hv
    cases v <;> first
      | rfl
      | (exfalso; simp [isObjB] at hv)
  · intro stats
    induction stats with
    | nil => rfl
    | cons p rest ih =>
        by_cases hp : isObjB p.2 = true
        · rw [List.filter_cons]
          simp only [hp, if_true]
          rw [stat_list_errors_cons, stat_list_errors_cons, ih]
        · have hpf : isObjB p.2 = false := by simpa using hp
          rw [List.filter_cons]
          simp only [hpf, Bool.false_eq_true, if_false]
          rw [stat_list_errors_cons]
          have hz : stat_entry_errors p.1 p.2 = [] := by
            cases hv : p.2 <;> first
              | rfl
              | (exfalso; exact hp (by rw [hv]; rfl))
          rw [hz, List.nil_append, ih]

/-- Witness for C10 at a string-valued stat entry. -/
theorem C10_witness :
    isObjB (JSON.str "not a dict") = false ∧
    stat_entry_errors "hp" (JSON.str "not a dict") = [] :=
  ⟨rfl, C10_nondict_stat_entries_skipped.1 "hp" (JSON.str "not a dict") rfl⟩

/-- The two stat error messages for one stat differ (their fixed suffixes
have different lengths). -/
theorem stat_msgs_ne (stat_name : String) :
    ("Stat " ++ stat_name ++ ": initial value exceeds maximum") ≠
    ("Stat " ++ stat_name ++ ": criticalThreshold should be less than maximum") := by
  intro h
  have h2 := congrArg String.length h
  simp only [String.length_append] at h2
  have e1 : (": initial value exceeds maximum").length = 31 := rfl
  have e2 : (": criticalThreshold should be less than maximum").length = 47 := rfl
  rw [e1, e2] at h2
  omega

/-- **C7**: for a stat entry that is a dict containing numeric `initial`
and `max`, the initial-exceeds-max error is reported iff `initial > max`;
and when a numeric `criticalThreshold` is also present, the
criticalThreshold error is reported iff `criticalThreshold ≥ max` (i.e.
not strictly below `max`). -/
theorem C7_stat_bounds_errors_iff (stat_name : String) (cfg : Obj) (ini mx : Rat)
    (hi : lookupKey cfg "initial" = some (.num ini))
    (hm : lookupKey cfg "max" = some (.num mx)) :
    (("Stat " ++ stat_name ++ ": initial value exceeds maximum") ∈
        stat_entry_errors stat_name (.obj cfg) ↔ ini > mx) ∧
    (∀ ct : Rat, lookupKey cfg "criticalThreshold" = some (.num ct) →
      (("Stat " ++ stat_name ++ ": criticalThreshold should be less than maximum") ∈
        stat_entry_errors stat_name (.obj cfg) ↔ ct ≥ mx)) := by
  have hki : hasKey cfg "initial" = true := by simp [hasKey, hi]
  have hkm : hasKey cfg "max" = true := by simp [hasKey, hm]
  have hne := stat_msgs_ne stat_name
  have hrepr : stat_entry_errors stat_name (.obj cfg) =
      (if ini > mx then ["Stat " ++ stat_name ++ ": initial value exceeds maximum"] else []) ++
      (if hasKey cfg "criticalThreshold" then
        (if numGE ((lookupKey cfg "criticalThreshold").getD .null) (.num mx) then
          ["Stat " ++ stat_name ++ ": criticalThreshold should be less than maximum"]
         else [])
       else []) := by
    simp [stat_entry_errors, hki, hkm, hi, hm, numGT]
  constructor
  · rw [hrepr]
    by_cases hgt : ini > mx
    · simp [hgt]
    · by_cases hc : hasKey cfg "criticalThreshold" = true
      · cases hcase : numGE ((lookupKey cfg "criticalThreshold").getD .null) (.num mx) with
        | false => simp [hgt, hc, hcase]
        | true => simp [hgt, hc, hcase, hne]
      · simp [hgt, hc]
  · intro ct hct
    have hkc : hasKey cfg "criticalThreshold" = true := by simp [hasKey, hct]
    rw [hrepr]
    simp only [hkc, if_true, hct, Option.getD_some, numGE]
    by_cases hge : ct ≥ mx
    · simp [hge]
    · by_cases hgt : ini > mx
      · simp [hge, hgt, Ne.symm hne]
      · simp [hge, hgt]

/-- Witness for C7: `hp = {initial: 120, max: 100, criticalThreshold: 100}`
yields both errors. -/
theorem C7_witness :
    (("Stat " ++ "hp" ++ ": initial value exceeds maximum") ∈
      stat_entry_errors "hp" (.obj [("initial", .num 120), ("max", .num 100),
        ("criticalThreshold", .num 100)])) ∧
    (("Stat " ++ "hp" ++ ": criticalThreshold should be less than maximum") ∈
      stat_entry_errors "hp" (.obj [("initial", .num 120), ("max", .num 100),
        ("criticalThreshold", .num 100)])) := by
  have h := C7_stat_bounds_errors_iff "hp"
    [("initial", .num 120), ("max", .num 100), ("criticalThreshold", .num 100)]
    120 100 rfl rfl
  exact ⟨h.1.mpr (by norm_num), (h.2 100 rfl).mpr (by norm_num)⟩

theorem hasKey_setKey_mono (d : Obj) (k' : String) (v : JSON) (k : String)
    (h : hasKey d k = true) : hasKey (setKey d k' v) k = true := by
  by_cases he : k' = k
  · subst he
    exact hasKey_setKey_self d k' v
  · rw [hasKey_setKey_ne d k k' v he]
    exact h

theorem hasKey_map_existing_step_mono (m : Obj) (a k : String)
    (h : hasKey m k = true) : hasKey (map_existing_step m a) k = true := by
  unfold map_existing_step
  split <;> exact hasKey_setKey_mono m a _ k h

theorem hasKey_map_existing_step_self (m : Obj) (a : String) :
    hasKey (map_existing_step m a) a = true := by
  unfold map_existing_step
  split <;> exact hasKey_setKey_self m a _

theorem hasKey_force_core_step_mono (m : Obj) (a k : String)
    (h : hasKey m k = true) : hasKey (force_core_step m a) k = true := by
  unfold force_core_step
  split
  · exact h
  · exact hasKey_setKey_mono m a _ k h

theorem hasKey_force_core_step_self (m : Obj) (a : String) :
    hasKey (force_core_step m a) a = true := by
  unfold force_core_step
  split
  · assumption
  · exact hasKey_setKey_self m a _

theorem foldl_hasKey_mono (step : Obj → String → Obj)
    (hmono : ∀ m a k, hasKey m k = true → hasKey (step m a) k = true)
    (L : List String) (m : Obj) (k : String) (h : hasKey m k = true) :
    hasKey (L.foldl step m) k = true := by
  induction L generalizing m with
  | nil => exact h
  | cons a L ih => exact ih (step m a) (hmono m a k h)

theorem foldl_hasKey_of_mem (step : Obj → String → Obj)
    (hmono : ∀ m a k, hasKey m k = true → hasKey (step m a) k = true)
    (hself : ∀ m a, hasKey (step m a) a = true)
    (L : List String) (m : Obj) (k : String) (hk : k ∈ L) :
    hasKey (L.foldl step m) k = true := by
  induction L generalizing m with
  | nil => cases hk
  | cons a L ih =>
      rcases List.mem_cons.mp hk with he | hm
      · subst he
        exact foldl_hasKey_mono step hmono L (step m k) k (hself m k)
      · exact ih (step m a) hm

theorem hasKey_iteSet_mono (c : Prop) [Decidable c] (m : Obj) (kset k : String) (v : JSON)
    (h : hasKey m k = true) : hasKey (if c then setKey m kset v else m) k = true := by
  split
  · exact hasKey_setKey_mono m kset v k h
  · exact h

theorem hasKey_condSet (c : Bool) (m : Obj) (kset : String) (v : JSON) (hc : c = true) :
    hasKey (if (c && !hasKey m kset) = true then setKey m kset v else m) kset = true := by
  cases hk : hasKey m kset
  · simp only [hc, hk, Bool.not_false, Bool.and_true, if_true]
    exact hasKey_setKey_self m kset v
  · simp only [hc, hk, Bool.not_true, Bool.and_false, Bool.false_eq_true, if_false]

/-- **C4**: the merged `animationMappings` key set is a superset of the
existing animation names and of the six-name core set, and contains every
applicable archetype-conditional addition (`magical` and `sleeping` for
`aria_luna`, `sleeping` for `specialist`); no existing name is dropped. -/
theorem C4_merge_superset (existing_names : List String) (archetype : String) :
    (∀ n ∈ existing_names,
      hasKey (merge_animation_mappings existing_names archetype) n = true) ∧
    (∀ c ∈ core_animations,
      hasKey (merge_animation_mappings existing_names archetype) c = true) ∧
    (archetype = "aria_luna" →
      hasKey (merge_animation_mappings existing_names archetype) "magical" = true ∧
      hasKey (merge_animation_mappings existing_names archetype) "sleeping" = true) ∧
    (archetype = "specialist" →
      hasKey (merge_animation_mappings existing_names archetype) "sleeping" = true) := by
  unfold merge_animation_mappings
  refine ⟨?_, ?_, ?_, ?_⟩
  · intro n hn
    apply hasKey_iteSet_mono
    apply hasKey_iteSet_mono
    apply foldl_hasKey_mono force_core_step hasKey_force_core_step_mono
    exact foldl_hasKey_of_mem map_existing_step hasKey_map_existing_step_mono
      hasKey_map_existing_step_self existing_names [] n hn
  · intro c hc
    apply hasKey_iteSet_mono
    apply hasKey_iteSet_mono
    exact foldl_hasKey_of_mem force_core_step hasKey_force_core_step_mono
      hasKey_force_core_step_self core_animations _ c hc
  · intro ha
    subst ha
    constructor
    · apply hasKey_iteSet_mono
      exact hasKey_condSet _ _ "magical" _ (by decide)
    · exact hasKey_condSet _ _ "sleeping" _ (by decide)
  · intro ha
    subst ha
    exact hasKey_condSet _ _ "sleeping" _ (by decide)

/-- Witness for C4 at a custom animation name and the `aria_luna`
archetype. -/
theorem C4_witness :
    hasKey (merge_animation_mappings ["custom_pose"] "aria_luna") "custom_pose" = true ∧
    hasKey (merge_animation_mappings ["custom_pose"] "aria_luna") "idle" = true ∧
    hasKey (merge_animation_mappings ["custom_pose"] "aria_luna") "eating" = true ∧
    hasKey (merge_animation_mappings ["custom_pose"] "aria_luna") "magical" = true ∧
    hasKey (merge_animation_mappings ["custom_pose"] "aria_luna") "sleeping" = true := by
  have h := C4_merge_superset ["custom_pose"] "aria_luna"
  exact ⟨h.1 "custom_pose" (by decide), h.2.1 "idle" (by decide),
    h.2.1 "eating" (by decide), (h.2.2.1 rfl).1, (h.2.2.1 rfl).2⟩

/-- The keys injected by the eight unconditional-default fills. -/
theorem subsystem_defaults_keys (n : String) :
    (subsystem_defaults n).map Prod.fst =
    ["dialogBackend", "giftSystem", "multiplayer", "newsFeatures",
     "battleSystem", "generalEvents", "progression", "behavior"] := rfl

/-- Every fill-if-absent subsystem key differs from the two specially
handled keys. -/
theorem mem_keys8_ne (k : String)
    (hk : k ∈ ["dialogBackend", "giftSystem", "multiplayer", "newsFeatures",
      "battleSystem", "generalEvents", "progression", "behavior"]) :
    k ≠ "assetGeneration" ∧ k ≠ "randomEvents" := by
  fin_cases hk <;> exact ⟨by decide, by decide⟩

/-- The eight fill keys are among the completer's ten keys. -/
theorem keys8_sub_completer (k : String)
    (hk : k ∈ ["dialogBackend", "giftSystem", "multiplayer", "newsFeatures",
      "battleSystem", "generalEvents", "progression", "behavior"]) :
    k ∈ completer_feature_keys := by
  fin_cases hk <;> decide

/-- Decomposition of a successful run of
`add_missing_features_to_character`: the intermediate document after the
`assetGeneration` step, and the final result as the random-events step
followed by the eight fills. -/
theorem add_missing_decomp (char_name : String) (p q : Obj)
    (h : add_missing_features_to_character char_name p = some q) :
    ∃ d₀ : Obj,
      ((hasKey p "assetGeneration" = true ∧ d₀ = p) ∨
       (hasKey p "assetGeneration" = false ∧
         ∃ v, get_character_asset_config char_name p = some v ∧
           d₀ = setKey p "assetGeneration" v)) ∧
      q = fillChain (subsystem_defaults char_name)
            (if truthyKey d₀ "randomEvents" = true then d₀
             else setKey d₀ "randomEvents" randomEvents_default) := by
  simp only [add_missing_features_to_character] at h
  by_cases hp : hasKey p "assetGeneration" = true
  · rw [if_pos hp, Option.map_some', Option.some.injEq] at h
    exact ⟨p, Or.inl ⟨hp, rfl⟩, h.symm⟩
  · have hpf : hasKey p "assetGeneration" = false := by simpa using hp
    rw [if_neg hp] at h
    obtain ⟨a, ha, hga⟩ := Option.map_eq_some'.mp h
    obtain ⟨v, hv, hfv⟩ := Option.map_eq_some'.mp ha
    exact ⟨a, Or.inr ⟨hpf, v, hv, hfv.symm⟩, hga.symm⟩

/-- Looking up any key other than `assetGeneration` and `randomEvents`
right before the eight fills gives its value in the input document. -/
theorem lookupKey_pre_chain (char_name : String) (p d₀ : Obj)
    (hd₀ : (hasKey p "assetGeneration" = true ∧ d₀ = p) ∨
       (hasKey p "assetGeneration" = false ∧
         ∃ v, get_character_asset_config char_name p = some v ∧
           d₀ = setKey p "assetGeneration" v))
    (k : String) (h1 : k ≠ "assetGeneration") (h2 : k ≠ "randomEvents") :
    lookupKey (if truthyKey d₀ "randomEvents" = true then d₀
      else setKey d₀ "randomEvents" randomEvents_default) k = lookupKey p k := by
  have hl₀ : lookupKey d₀ k = lookupKey p k := by
    rcases hd₀ with ⟨hp, rfl⟩ | ⟨hp, v, hv, hd⟩
    · rfl
    · rw [hd]
      exact lookupKey_setKey_ne p k "assetGeneration" v (Ne.symm h1)
  split
  · exact hl₀
  · rw [lookupKey_setKey_ne _ k "randomEvents" _ (Ne.symm h2)]
    exact hl₀

/-- `lookupKey` of `randomEvents` right before the eight fills: unchanged
if it was truthy in the (assetGeneration-step) document, else the default. -/
theorem lookupKey_pre_chain_randomEvents (char_name : String) (p d₀ : Obj)
    (hd₀ : (hasKey p "assetGeneration" = true ∧ d₀ = p) ∨
       (hasKey p "assetGeneration" = false ∧
         ∃ v, get_character_asset_config char_name p = some v ∧
           d₀ = setKey p "assetGeneration" v)) :
    lookupKey d₀ "randomEvents" = lookupKey p "randomEvents" ∧
    truthyKey d₀ "randomEvents" = truthyKey p "randomEvents" := by
  have hl : lookupKey d₀ "randomEvents" = lookupKey p "randomEvents" := by
    rcases hd₀ with ⟨hp, rfl⟩ | ⟨hp, v, hv, hd⟩
    · rfl
    · rw [hd]
      exact lookupKey_setKey_ne p "randomEvents" "assetGeneration" v (by decide)
  exact ⟨hl, by unfold truthyKey; rw [hl]⟩

/-- After a successful completion run, `assetGeneration` is present,
`randomEvents` is truthy, and all eight fill keys are present. -/
theorem add_missing_result_facts (char_name : String) (p q : Obj)
    (h : add_missing_features_to_character char_name p = some q) :
    hasKey q "assetGeneration" = true ∧
    truthyKey q "randomEvents" = true ∧
    (∀ k ∈ (subsystem_defaults char_name).map Prod.fst, hasKey q k = true) := by
  obtain ⟨d₀, hd₀, hq⟩ := add_missing_decomp char_name p q h
  have hA₀ : hasKey d₀ "assetGeneration" = true := by
    rcases hd₀ with ⟨hp, rfl⟩ | ⟨hp, v, hv, hd⟩
    · exact hp
    · rw [hd]
      exact hasKey_setKey_self p "assetGeneration" v
  have hA₂ : hasKey (if truthyKey d₀ "randomEvents" = true then d₀
      else setKey d₀ "randomEvents" randomEvents_default) "assetGeneration" = true := by
    split
    · exact hA₀
    · rw [hasKey_setKey_ne _ "assetGeneration" "randomEvents" _ (by decide)]
      exact hA₀
  have hR₂ : truthyKey (if truthyKey d₀ "randomEvents" = true then d₀
      else setKey d₀ "randomEvents" randomEvents_default) "randomEvents" = true := by
    by_cases ht : truthyKey d₀ "randomEvents" = true
    · rw [if_pos ht]
      exact ht
    · rw [if_neg ht]
      unfold truthyKey
      rw [lookupKey_setKey_self]
      rfl
  subst hq
  refine ⟨hasKey_fillChain_mono _ _ _ hA₂, ?_, ?_⟩
  · unfold truthyKey
    rw [lookupKey_fillChain_not_mem _ _ "randomEvents"
      (by rw [subsystem_defaults_keys]; decide)]
    unfold truthyKey at hR₂
    exact hR₂
  · intro k hk
    exact hasKey_fillChain_mem _ _ k hk

/-- **C5**: feature completion is idempotent — a second run on the result
of a successful run changes nothing. -/
theorem C5_completeFeatures_idempotent (char_name : String) (p q : Obj)
    (h : add_missing_features_to_character char_name p = some q) :
    add_missing_features_to_character char_name q = some q := by
  obtain ⟨hA, hR, hK⟩ := add_missing_result_facts char_name p q h
  simp only [add_missing_features_to_character]
  rw [if_pos hA, Option.map_some', Option.some.injEq]
  show fillChain (subsystem_defaults char_name)
      (if truthyKey q "randomEvents" = true then q
       else setKey q "randomEvents" randomEvents_default) = q
  rw [if_pos hR]
  exact fillChain_id _ q hK

/-- Witness for C5 at a small concrete profile. -/
theorem C5_witness :
    add_missing_features_to_character "test"
      ((add_missing_features_to_character "test"
        [("assetGeneration", JSON.bool true)]).getD []) =
    add_missing_features_to_character "test" [("assetGeneration", JSON.bool true)] := by
  have h : add_missing_features_to_character "test" [("assetGeneration", JSON.bool true)] =
      some ((add_missing_features_to_character "test"
        [("assetGeneration", JSON.bool true)]).getD []) := rfl
  exact (C5_completeFeatures_idempotent "test" _ _ h).trans h.symm

/-- **C1 (amended)**: on a successful run of the feature completer, each of
the eight plain subsystem keys is left byte-for-byte unchanged whenever it
is present — truthy **or falsy** — and is set to its fixed default stub
only when absent; only `randomEvents` uses the absent-or-falsy test (its
default is injected exactly when `randomEvents` is absent or falsy);
`assetGeneration` is injected (with the synthesized, character-dependent
config) only when wholly absent and otherwise left unchanged. -/
theorem C1_fill_semantics (char_name : String) (p q : Obj)
    (h : add_missing_features_to_character char_name p = some q) :
    (∀ k v, (k, v) ∈ subsystem_defaults char_name → hasKey p k = true →
      lookupKey q k = lookupKey p k) ∧
    (∀ k v, (k, v) ∈ subsystem_defaults char_name → hasKey p k = false →
      lookupKey q k = some v) ∧
    (truthyKey p "randomEvents" = true →
      lookupKey q "randomEvents" = lookupKey p "randomEvents") ∧
    (truthyKey p "randomEvents" = false →
      lookupKey q "randomEvents" = some randomEvents_default) ∧
    (hasKey p "assetGeneration" = true →
      lookupKey q "assetGeneration" = lookupKey p "assetGeneration") ∧
    (∀ v, hasKey p "assetGeneration" = false →
      get_character_asset_config char_name p = some v →
      lookupKey q "assetGeneration" = some v) := by
  obtain ⟨d₀, hd₀, hq⟩ := add_missing_decomp char_name p q h
  subst hq
  refine ⟨?_, ?_, ?_, ?_, ?_, ?_⟩
  · intro k v hm hp
    have hkm : k ∈ (subsystem_defaults char_name).map Prod.fst :=
      List.mem_map_of_mem Prod.fst hm
    have hne := mem_keys8_ne k (by rwa [subsystem_defaults_keys] at hkm)
    have hpre := lookupKey_pre_chain char_name p d₀ hd₀ k hne.1 hne.2
    rw [lookupKey_fillChain_present _ _ k (by unfold hasKey; rw [hpre]; exact hp)]
    exact hpre
  · intro k v hm hp
    have hkm : k ∈ (subsystem_defaults char_name).map Prod.fst :=
      List.mem_map_of_mem Prod.fst hm
    have hne := mem_keys8_ne k (by rwa [subsystem_defaults_keys] at hkm)
    have hpre := lookupKey_pre_chain char_name p d₀ hd₀ k hne.1 hne.2
    refine lookupKey_fillChain_absent_mem _ _ k v
      (by rw [subsystem_defaults_keys]; decide) hm ?_
    unfold hasKey
    rw [hpre]
    exact hp
  · intro ht
    obtain ⟨hl, htt⟩ := lookupKey_pre_chain_randomEvents char_name p d₀ hd₀
    rw [lookupKey_fillChain_not_mem _ _ "randomEvents"
      (by rw [subsystem_defaults_keys]; decide)]
    rw [if_pos (by rw [htt]; exact ht)]
    exact hl
  · intro ht
    obtain ⟨hl, htt⟩ := lookupKey_pre_chain_randomEvents char_name p d₀ hd₀
    rw [lookupKey_fillChain_not_mem _ _ "randomEvents"
      (by rw [subsystem_defaults_keys]; decide)]
    rw [if_neg (by rw [htt, ht]; exact Bool.false_ne_true)]
    exact lookupKey_setKey_self d₀ "randomEvents" _
  · intro hp
    rw [lookupKey_fillChain_not_mem _ _ "assetGeneration"
      (by rw [subsystem_defaults_keys]; decide)]
    have hd : d₀ = p := by
      rcases hd₀ with ⟨_, hd⟩ | ⟨hpf, _⟩
      · exact hd
      · rw [hp] at hpf
        cases hpf
    subst hd
    split
    · rfl
    · exact lookupKey_setKey_ne _ "assetGeneration" "randomEvents" _ (by decide)
  · intro v hpf hv
    rw [lookupKey_fillChain_not_mem _ _ "assetGeneration"
      (by rw [subsystem_defaults_keys]; decide)]
    rcases hd₀ with ⟨hp, _⟩ | ⟨_, v', hv', hd⟩
    · rw [hpf] at hp
      cases hp
    · have hvv : v' = v := Option.some_inj.mp (hv'.symm.trans hv)
      subst hd
      split
      · rw [lookupKey_setKey_self p "assetGeneration" v', hvv]
      · rw [lookupKey_setKey_ne _ "assetGeneration" "randomEvents" _ (by decide)]
        rw [lookupKey_setKey_self p "assetGeneration" v', hvv]

/-- Witness for C1's amended theorem: a present (even falsy) subsystem
value is untouched. -/
theorem C1_witness :
    lookupKey ((add_missing_features_to_character "x"
      [("dialogBackend", JSON.obj []), ("assetGeneration", JSON.bool true)]).getD [])
      "dialogBackend" = some (JSON.obj []) := by
  have h : add_missing_features_to_character "x"
      [("dialogBackend", JSON.obj []), ("assetGeneration", JSON.bool true)] =
      some ((add_missing_features_to_character "x"
        [("dialogBackend", JSON.obj []), ("assetGeneration", JSON.bool true)]).getD []) := rfl
  have h1 := (C1_fill_semantics "x" _ _ h).1 "dialogBackend" dialogBackend_default
    (by simp [subsystem_defaults]) rfl
  exact h1.trans rfl

/-- **C1 counterexample**: a profile whose `dialogBackend` is present but
falsy (the empty dict) keeps that empty dict after completion — the
default stub is *not* injected, contradicting the claimed absent-or-falsy
rule for all subsystem keys. -/
theorem C1_counterexample :
    truthyKey [("dialogBackend", JSON.obj []), ("assetGeneration", JSON.bool true)]
      "dialogBackend" = false ∧
    lookupKey ((add_missing_features_to_character "x"
      [("dialogBackend", JSON.obj []), ("assetGeneration", JSON.bool true)]).getD [])
      "dialogBackend" = some (JSON.obj []) ∧
    JSON.obj [] ≠ dialogBackend_default := by
  refine ⟨rfl, rfl, ?_⟩
  intro hcontra
  simp [dialogBackend_default] at hcontra

/-- **C8 (amended)**: every key the completer can inject is part of the
audit's feature vocabulary, but not conversely — the audit vocabulary is
strictly larger.  Behaviourally: after a successful completion all ten
completer keys are present, while any other key (in particular the
audit-only ones) is left exactly as in the input. -/
theorem C8_audit_vs_completer_keys (char_name : String) (p q : Obj)
    (h : add_missing_features_to_character char_name p = some q) :
    (∀ k ∈ completer_feature_keys, k ∈ ALL_FEATURES) ∧
    ¬ (∀ k ∈ ALL_FEATURES, k ∈ completer_feature_keys) ∧
    (∀ k ∈ completer_feature_keys, hasKey q k = true) ∧
    (∀ k, k ∉ completer_feature_keys → lookupKey q k = lookupKey p k) := by
  obtain ⟨hA, hR, hK⟩ := add_missing_result_facts char_name p q h
  refine ⟨by decide, fun hall => absurd (hall "personality" (by decide)) (by decide),
    ?_, ?_⟩
  · intro k hk
    fin_cases hk
    · exact hA
    · unfold hasKey
      unfold truthyKey at hR
      rcases hcase : lookupKey q "randomEvents" with _ | v
      · rw [hcase] at hR
        exact (Bool.false_ne_true hR).elim
      · rfl
    all_goals exact hK _ (by rw [subsystem_defaults_keys]; decide)
  · intro k hk
    obtain ⟨d₀, hd₀, hq⟩ := add_missing_decomp char_name p q h
    have h1 : k ≠ "assetGeneration" := fun he => hk (by rw [he]; decide)
    have h2 : k ≠ "randomEvents" := fun he => hk (by rw [he]; decide)
    have h8 : k ∉ (subsystem_defaults char_name).map Prod.fst := by
      rw [subsystem_defaults_keys]
      intro hm
      exact hk (keys8_sub_completer k hm)
    subst hq
    rw [lookupKey_fillChain_not_mem _ _ k h8]
    exact lookupKey_pre_chain char_name p d₀ hd₀ k h1 h2

/-- Witness for C8's amended theorem at a small concrete profile. -/
theorem C8_witness :
    hasKey ((add_missing_features_to_character "x"
      [("name", JSON.str "X"), ("assetGeneration", JSON.bool true)]).getD [])
      "dialogBackend" = true ∧
    lookupKey ((add_missing_features_to_character "x"
      [("name", JSON.str "X"), ("assetGeneration", JSON.bool true)]).getD [])
      "personality" = none := by
  have h : add_missing_features_to_character "x"
      [("name", JSON.str "X"), ("assetGeneration", JSON.bool true)] =
      some ((add_missing_features_to_character "x"
        [("name", JSON.str "X"), ("assetGeneration", JSON.bool true)]).getD []) := rfl
  have hc := C8_audit_vs_completer_keys "x" _ _ h
  exact ⟨hc.2.2.1 "dialogBackend" (by decide),
    (hc.2.2.2 "personality" (by decide)).trans rfl⟩

/-- **C8 counterexample**: `personality` is audited by
`analyze_feature_coverage` but is not one of the completer's keys, and the
completer indeed never injects it. -/
theorem C8_counterexample :
    "personality" ∈ ALL_FEATURES ∧ "personality" ∉ completer_feature_keys ∧
    hasKey ((add_missing_features_to_character "x"
      [("assetGeneration", JSON.bool true)]).getD []) "personality" = false :=
  ⟨by decide, by decide, rfl⟩
